import Mathlib

set_option maxRecDepth 4000

/-!
Shallow embedding of the PokeAPI wizard module (src/models/poke_wizard.py).

The module defines an Odoo transient model `poke.wizard` with a search
action `action_search_api` and an image helper `_fetch_image`.  The
embedding models the wizard record as a structure, the two HTTP worlds
(catalog and images) as explicit oracles, and the action as a pure
function returning the mutated triggering record, the list of HTTP
requests issued (with their timeouts), and either the freshly created
result record or the Python exception raised.
-/

/-- Python str helpers: the whitespace characters stripped by str.strip. -/
def isPySpace (c : Char) : Bool :=
  c == ' ' || c == '\t' || c == '\n' || c == '\r' || c == Char.ofNat 11 || c == Char.ofNat 12

/-- Python str.strip: drop whitespace from both ends. -/
def pyStrip (s : String) : String :=
  String.mk (((s.data.dropWhile isPySpace).reverse.dropWhile isPySpace).reverse)

/-- Python str.lower (ASCII). -/
def pyLower (s : String) : String :=
  String.mk (s.data.map Char.toLower)

/-- Python str.capitalize: first character upper-cased, the rest lower-cased. -/
def pyCapitalize (s : String) : String :=
  match s.data with
  | [] => ""
  | c :: rest => String.mk (c.toUpper :: rest.map Char.toLower)

/-- Python str.title, character by character: a letter is upper-cased when the
previous character is not a letter, lower-cased otherwise (ASCII). -/
def pyTitleAux : Bool → List Char → List Char
  | _, [] => []
  | prevAlpha, c :: rest =>
      (if c.isAlpha then (if prevAlpha then c.toLower else c.toUpper) else c)
        :: pyTitleAux c.isAlpha rest

/-- Python str.title on a string. -/
def pyTitle (s : String) : String :=
  String.mk (pyTitleAux false s.data)

/-- Python str.replace applied with arguments "-" and " " as in the source. -/
def pyReplaceDash (s : String) : String :=
  String.mk (s.data.map (fun c => if c = '-' then ' ' else c))

/-- Standard base64 alphabet (Python base64.b64encode). -/
def b64Char (n : Nat) : Char :=
  if n < 26 then Char.ofNat (65 + n)
  else if n < 52 then Char.ofNat (97 + (n - 26))
  else if n < 62 then Char.ofNat (48 + (n - 52))
  else if n = 62 then '+' else '/'

/-- Python base64.b64encode over a byte list, with padding. -/
def b64encode : List Nat → List Char
  | [] => []
  | [a] =>
      [b64Char (a % 256 / 4), b64Char (a % 256 % 4 * 16), '=', '=']
  | [a, b] =>
      [b64Char (a % 256 / 4), b64Char (a % 256 % 4 * 16 + b % 256 / 16),
       b64Char (b % 256 % 16 * 4), '=']
  | a :: b :: c :: rest =>
      b64Char (a % 256 / 4) :: b64Char (a % 256 % 4 * 16 + b % 256 / 16) ::
      b64Char (b % 256 % 16 * 4 + c % 256 / 64) :: b64Char (c % 256 % 64) ::
      b64encode rest

/-- The selection field search_type: value strings "pokemon" and "item". -/
inductive SearchType
  | pokemon
  | item
deriving DecidableEq

/-- The stored selection value, as the Python string the code compares against. -/
def searchTypeValue : SearchType → String
  | SearchType.pokemon => "pokemon"
  | SearchType.item => "item"

/-- One entry of the payload list data[types]: the nested name data[types][i][type][name]. -/
structure TypeEntry where
  typeName : String
deriving DecidableEq

/-- One entry of data[effect_entries]: language name and short_effect. -/
structure EffectEntry where
  languageName : String
  shortEffect : String
deriving DecidableEq

/-- The payload object data[sprites].  The three URL keys are nullable in the
catalog schema; none models a null (or absent) URL, which the code treats as
falsy in _fetch_image.  itemDefault models the JSON key named default. -/
structure Sprites where
  front_default : Option String
  back_default : Option String
  itemDefault : Option String
deriving DecidableEq

/-- The decoded JSON payload.  Every top-level key the code touches is an
Option: none means the key is absent from the dict, so a direct subscript
data[key] raises KeyError while data.get(key, d) yields d. -/
structure Payload where
  name : Option String
  id : Option Int
  height : Option Int
  weight : Option Int
  types : Option (List TypeEntry)
  cost : Option Int
  effect_entries : Option (List EffectEntry)
  sprites : Option Sprites
deriving DecidableEq

/-- The poke.wizard record.  Odoo Char/Text/Binary fields are Options whose
none is the falsy unset value False; Float fields are modelled as Rat;
Integer fields as Int.  Binary payloads are the base64 character lists
produced by _fetch_image. -/
structure PokeWizard where
  search_type : SearchType
  search_name : String
  found : Bool
  result_name : Option String
  result_id : Int
  height_cm : Rat
  weight_kg : Rat
  poke_types : Option String
  item_cost : Int
  item_effect : Option String
  sprite_front : Option (List Char)
  sprite_back : Option (List Char)
deriving DecidableEq

/-- An HTTP request issued by the module: its URL and the timeout passed to
requests.get. -/
structure HttpRequest where
  url : String
  timeout : Nat
deriving DecidableEq

/-- Outcome of an image GET: a status/body response, or a raised
requests.exceptions.RequestException with its message. -/
inductive HttpOutcome
  | response (status : Nat) (body : List Nat)
  | transportError (cause : String)

/-- Outcome of the catalog GET: a status plus (for 200) the decoded JSON
payload, or a raised RequestException. -/
inductive CatalogOutcome
  | response (status : Nat) (payload : Payload)
  | transportError (cause : String)

/-- Python exceptions the action can surface: odoo UserError, or KeyError
from a direct subscript on a partial payload. -/
inductive PyExc
  | userError (msg : String)
  | keyError (key : String)
deriving DecidableEq

/-- Embeds _fetch_image (poke_wizard.py lines 72-95): falsy URL returns False
without a request; otherwise one GET with timeout 5; status 200 returns the
base64-encoded body, any other status or transport exception returns False.
Also returns the list of requests issued. -/
def fetch_image (w : String → HttpOutcome) (url : Option String) :
    List HttpRequest × Option (List Char) :=
  match url with
  | none => ([], none)
  | some u =>
      if u = "" then ([], none)
      else
        match w u with
        | HttpOutcome.response st body =>
            if st = 200 then ([⟨u, 5⟩], some (b64encode body)) else ([⟨u, 5⟩], none)
        | HttpOutcome.transportError _ => ([⟨u, 5⟩], none)

/-- The loop of poke_wizard.py lines 169-171: effect_text starts at the
sentinel and is overwritten by the short_effect of every entry whose
language name is "es", so the last match wins. -/
def effectLoop (acc : String) : List EffectEntry → String
  | [] => acc
  | e :: rest => effectLoop (if e.languageName = "es" then e.shortEffect else acc) rest

/-- Lines 167-171: the sentinel is kept when effect_entries is absent (or
empty, over which the loop is a no-op). -/
def effectTextOf (entries : Option (List EffectEntry)) : String :=
  match entries with
  | none => "Sin descripción"
  | some l => effectLoop "Sin descripción" l

/-- The catalog URL built at poke_wizard.py lines 112-117 from the base URL,
the endpoint chosen by search_type, and the stripped lower-cased query. -/
def catalogUrl (s : PokeWizard) : String :=
  "https://pokeapi.co/api/v2/" ++
    (if s.search_type = SearchType.pokemon then "pokemon" else "item") ++ "/" ++
    pyLower (pyStrip s.search_name)

/-- Embeds the success path of action_search_api (lines 132-183): the vals
dict handed to create.  Direct subscripts on missing keys raise KeyError in
source evaluation order (name, id, then per kind: types, height, weight,
sprites for pokemon; effect loop then sprites for item).  Image fetches run
after the field reads, front before back, and their requests are returned in
order.  On success the created record is returned with found true, the
title-cased de-hyphenated name, the numeric id, and the kind-specific
fields, every opposite-kind field at its cleared value. -/
def searchVals (s : PokeWizard) (data : Payload) (w : String → HttpOutcome) :
    List HttpRequest × Except PyExc PokeWizard :=
  match data.name with
  | none => ([], Except.error (PyExc.keyError "name"))
  | some nm =>
  match data.id with
  | none => ([], Except.error (PyExc.keyError "id"))
  | some rid =>
  if s.search_type = SearchType.pokemon then
    match data.types with
    | none => ([], Except.error (PyExc.keyError "types"))
    | some tys =>
    match data.height with
    | none => ([], Except.error (PyExc.keyError "height"))
    | some h =>
    match data.weight with
    | none => ([], Except.error (PyExc.keyError "weight"))
    | some wt =>
    match data.sprites with
    | none => ([], Except.error (PyExc.keyError "sprites"))
    | some spr =>
      ((fetch_image w spr.front_default).1 ++ (fetch_image w spr.back_default).1,
        Except.ok {
          search_type := s.search_type
          search_name := s.search_name
          found := true
          result_name := some (pyTitle (pyReplaceDash nm))
          result_id := rid
          height_cm := (h : Rat) * 10
          weight_kg := (wt : Rat) / 10
          poke_types := some (String.intercalate ", " (tys.map (fun t => pyCapitalize t.typeName)))
          item_cost := 0
          item_effect := none
          sprite_front := (fetch_image w spr.front_default).2
          sprite_back := (fetch_image w spr.back_default).2 })
  else
    match data.sprites with
    | none => ([], Except.error (PyExc.keyError "sprites"))
    | some spr =>
      ((fetch_image w spr.itemDefault).1,
        Except.ok {
          search_type := s.search_type
          search_name := s.search_name
          found := true
          result_name := some (pyTitle (pyReplaceDash nm))
          result_id := rid
          height_cm := 0
          weight_kg := 0
          poke_types := none
          item_cost := data.cost.getD 0
          item_effect := some (effectTextOf data.effect_entries)
          sprite_front := (fetch_image w spr.itemDefault).2
          sprite_back := none })

/-- Embeds action_search_api (lines 97-196).  The triggering record first has
both sprite fields set to False (lines 108-109); the catalog GET is issued
with timeout 10; a 404 raises the UserError naming the query and the
capitalized search_type, any other non-200 raises the generic connection
UserError, a transport exception raises the network UserError with its
cause, and a 200 builds the vals and creates a new record.  The result is
(mutated self, requests issued in order, created record or exception). -/
def action_search_api (s : PokeWizard) (cat : CatalogOutcome) (w : String → HttpOutcome) :
    PokeWizard × List HttpRequest × Except PyExc PokeWizard :=
  let cleared : PokeWizard := { s with sprite_front := none, sprite_back := none }
  let query : String := pyLower (pyStrip s.search_name)
  let catReq : HttpRequest := ⟨catalogUrl s, 10⟩
  match cat with
  | CatalogOutcome.transportError c =>
      (cleared, [catReq],
        Except.error (PyExc.userError ("Error de red al conectar con PokeAPI: " ++ c)))
  | CatalogOutcome.response status data =>
      if status = 404 then
        (cleared, [catReq],
          Except.error (PyExc.userError
            ("No se encontró nada con el nombre \x27" ++ query ++ "\x27 en la categoría " ++
              pyCapitalize (searchTypeValue s.search_type) ++ ".")))
      else if status = 200 then
        (cleared, catReq :: (searchVals s data w).1, (searchVals s data w).2)
      else
        (cleared, [catReq],
          Except.error (PyExc.userError "Hubo un error de conexión con la PokeAPI."))

/-- The triggering record after the action (the mutated self). -/
def runSelf (s : PokeWizard) (cat : CatalogOutcome) (w : String → HttpOutcome) : PokeWizard :=
  (action_search_api s cat w).1

/-- The HTTP requests issued by the action, in order. -/
def runRequests (s : PokeWizard) (cat : CatalogOutcome) (w : String → HttpOutcome) :
    List HttpRequest :=
  (action_search_api s cat w).2.1

/-- The created record, or the exception the action raises. -/
def runResult (s : PokeWizard) (cat : CatalogOutcome) (w : String → HttpOutcome) :
    Except PyExc PokeWizard :=
  (action_search_api s cat w).2.2

/-- The committed new record when the action succeeds. -/
def runCommitted (s : PokeWizard) (cat : CatalogOutcome) (w : String → HttpOutcome) :
    Option PokeWizard :=
  match (action_search_api s cat w).2.2 with
  | Except.ok r => some r
  | Except.error _ => none

/-- The fields of the record other than the two sprite fields, as a tuple. -/
def nonSpriteFields (r : PokeWizard) :
    SearchType × String × Bool × Option String × Int × Rat × Rat × Option String ×
      Int × Option String :=
  (r.search_type, r.search_name, r.found, r.result_name, r.result_id,
   r.height_cm, r.weight_kg, r.poke_types, r.item_cost, r.item_effect)

/-- Iterated lookup attempts on the same triggering record: each attempt runs
the action and keeps the mutated self for the next attempt. -/
def runAttempts (s : PokeWizard) : List (CatalogOutcome × (String → HttpOutcome)) → PokeWizard
  | [] => s
  | a :: rest => runAttempts (action_search_api s a.1 a.2).1 rest

/-- Decidable test that a catalog outcome is a failure (non-200 status or
transport exception). -/
def catalogFailedB : CatalogOutcome → Bool
  | CatalogOutcome.response st _ => st != 200
  | CatalogOutcome.transportError _ => true

/-- The raised exception when the action fails, as an Option. -/
def runError (s : PokeWizard) (cat : CatalogOutcome) (w : String → HttpOutcome) :
    Option PyExc :=
  match (action_search_api s cat w).2.2 with
  | Except.ok _ => none
  | Except.error e => some e

/-- Modelled from the spec: the item effect text obtained by selecting the
FIRST effect entry whose language tag matches the target locale, with the
sentinel when no entry matches.  Stated only to be compared against the
code's selection. -/
def specFirstEffect (loc : String) (entries : List EffectEntry) (sentinel : String) : String :=
  (((entries.find? (fun e => e.languageName == loc)).map EffectEntry.shortEffect).getD sentinel)

/-- Modelled from the spec: the creature type summary with each listed type
name TITLE-cased, joined by ", " in order.  Stated only to be compared
against the code's capitalize-based summary. -/
def specTitleTypeSummary (tys : List TypeEntry) : String :=
  String.intercalate ", " (tys.map (fun t => pyTitle t.typeName))

/-- A catalog world that always fails at transport level. -/
def wQuiet : String → HttpOutcome := fun _ => HttpOutcome.transportError "offline"

/-- An image world that always answers 200 with the three bytes of "Man". -/
def wOk : String → HttpOutcome := fun _ => HttpOutcome.response 200 [77, 97, 110]

/-- The empty payload: every top-level key absent. -/
def p0 : Payload :=
  { name := none, id := none, height := none, weight := none,
    types := none, cost := none, effect_entries := none, sprites := none }

/-- A sprites object whose three URLs are all null. -/
def sprNone : Sprites := { front_default := none, back_default := none, itemDefault := none }

/-- A wizard record holding the result of a prior successful creature lookup. -/
def sPika : PokeWizard :=
  { search_type := SearchType.pokemon, search_name := "pikachu",
    found := true, result_name := some "Pikachu", result_id := 25,
    height_cm := 40, weight_kg := 6, poke_types := some "Electric",
    item_cost := 0, item_effect := none, sprite_front := none, sprite_back := none }

/-- A fresh wizard record in item mode. -/
def sPotion : PokeWizard :=
  { search_type := SearchType.item, search_name := "potion",
    found := false, result_name := none, result_id := 0,
    height_cm := 0, weight_kg := 0, poke_types := none,
    item_cost := 0, item_effect := none, sprite_front := none, sprite_back := none }

/-- An item payload with two effect entries in the same target language. -/
def pItem2 : Payload :=
  { p0 with
    name := some "potion", id := some 17, cost := some 300,
    effect_entries := some [⟨"es", "A"⟩, ⟨"es", "B"⟩], sprites := some sprNone }

/-- A creature payload whose single type name contains a hyphen. -/
def pXY : Payload :=
  { p0 with
    name := some "mr-mime", id := some 122, height := some 13, weight := some 545,
    types := some [⟨"x-y"⟩], sprites := some sprNone }

/-- A creature payload that omits the height key. -/
def pNoHeight : Payload :=
  { p0 with
    name := some "bulbasaur", id := some 1, types := some [] }

/-- The record the action creates for sPotion against pItem2. -/
def recPotion : PokeWizard :=
  { search_type := SearchType.item, search_name := "potion",
    found := true, result_name := some "Potion", result_id := 17,
    height_cm := 0, weight_kg := 0, poke_types := none,
    item_cost := 300, item_effect := some "B", sprite_front := none, sprite_back := none }

/-- A record with a whitespace-only query and a populated front image. -/
def sBlank : PokeWizard :=
  { sPika with
    search_name := "   ", sprite_front := some ['x'] }

/-- An item payload with name, id and sprites but no cost and no effect
entries. -/
def pBare : Payload :=
  { p0 with
    name := some "oran-berry", id := some 99, sprites := some sprNone }

/-- Helper: the action always returns the triggering record with exactly its
two sprite fields cleared, in every outcome branch. -/
theorem selfAfter_frame (s : PokeWizard) (cat : CatalogOutcome) (w : String → HttpOutcome) :
    (action_search_api s cat w).1 = { s with sprite_front := none, sprite_back := none } := by
  cases cat with
  | transportError c => rfl
  | response st data =>
      by_cases h4 : st = 404
      · simp [action_search_api, h4]
      · by_cases h2 : st = 200
        · simp [action_search_api, h4, h2]
        · simp [action_search_api, h4, h2]

/-- Helper: every request issued by fetch_image carries timeout 5. -/
theorem fetch_image_timeout (w : String → HttpOutcome) (u : Option String) :
    ∀ r ∈ (fetch_image w u).1, r.timeout = 5 := by
  intro r hr
  cases u with
  | none => simp [fetch_image] at hr
  | some v =>
      by_cases hv : v = ""
      · simp [fetch_image, hv] at hr
      · cases hw : w v with
        | response st body =>
            by_cases h2 : st = 200
            · simp [fetch_image, hv, hw, h2] at hr
              rw [hr]
            · simp [fetch_image, hv, hw, h2] at hr
              rw [hr]
        | transportError m =>
            simp [fetch_image, hv, hw] at hr
            rw [hr]

/-- Helper: every request issued while building the vals carries timeout 5
(they are all image fetches). -/
theorem searchVals_timeout (s : PokeWizard) (data : Payload) (w : String → HttpOutcome) :
    ∀ r ∈ (searchVals s data w).1, r.timeout = 5 := by
  intro r hr
  unfold searchVals at hr
  rcases hn : data.name with _ | nm <;> simp only [hn] at hr
  · simp at hr
  rcases hi : data.id with _ | rid <;> simp only [hi] at hr
  · simp at hr
  by_cases hk : s.search_type = SearchType.pokemon
  · rw [if_pos hk] at hr
    rcases ht : data.types with _ | tys <;> simp only [ht] at hr
    · simp at hr
    rcases hh : data.height with _ | hgt <;> simp only [hh] at hr
    · simp at hr
    rcases hw2 : data.weight with _ | wt <;> simp only [hw2] at hr
    · simp at hr
    rcases hs2 : data.sprites with _ | spr <;> simp only [hs2] at hr
    · simp at hr
    simp only [List.mem_append] at hr
    rcases hr with hr | hr
    · exact fetch_image_timeout w _ r hr
    · exact fetch_image_timeout w _ r hr
  · rw [if_neg hk] at hr
    rcases hs2 : data.sprites with _ | spr <;> simp only [hs2] at hr
    · simp at hr
    exact fetch_image_timeout w _ r hr

/-- Helper: whenever the vals build succeeds, the created record has found
true, carries the triggering record's search fields, and has no back sprite
in item mode. -/
theorem searchVals_ok (s : PokeWizard) (data : Payload) (w : String → HttpOutcome)
    (rec : PokeWizard) (h : (searchVals s data w).2 = Except.ok rec) :
    rec.found = true ∧ rec.search_type = s.search_type ∧ rec.search_name = s.search_name ∧
      (s.search_type = SearchType.item → rec.sprite_back = none) := by
  unfold searchVals at h
  rcases hn : data.name with _ | nm <;> simp only [hn] at h
  · simp at h
  rcases hi : data.id with _ | rid <;> simp only [hi] at h
  · simp at h
  by_cases hk : s.search_type = SearchType.pokemon
  · rw [if_pos hk] at h
    rcases ht : data.types with _ | tys <;> simp only [ht] at h
    · simp at h
    rcases hh : data.height with _ | hgt <;> simp only [hh] at h
    · simp at h
    rcases hw2 : data.weight with _ | wt <;> simp only [hw2] at h
    · simp at h
    rcases hs2 : data.sprites with _ | spr <;> simp only [hs2] at h
    · simp at h
    simp only [Except.ok.injEq] at h
    subst h
    refine ⟨rfl, rfl, rfl, fun hitem => ?_⟩
    rw [hk] at hitem
    exact SearchType.noConfusion hitem
  · rw [if_neg hk] at h
    rcases hs2 : data.sprites with _ | spr <;> simp only [hs2] at h
    · simp at h
    simp only [Except.ok.injEq] at h
    subst h
    exact ⟨rfl, rfl, rfl, fun _ => rfl⟩

/-- Helper: the effect loop yields the short effect of the LAST entry whose
language is "es" (the last element of the filtered list), or the initial
accumulator when none matches. -/
theorem effectLoop_getLast (l : List EffectEntry) :
    ∀ acc, effectLoop acc l =
      ((((l.filter (fun e => e.languageName == "es")).getLast?).map
          EffectEntry.shortEffect).getD acc) := by
  induction l with
  | nil => intro acc; rfl
  | cons e rest ih =>
      intro acc
      by_cases he : e.languageName = "es"
      · rw [effectLoop, if_pos he, ih, List.filter_cons]
        simp only [he, beq_self_eq_true, if_true]
        rcases hrf : rest.filter (fun x : EffectEntry => x.languageName == "es") with _ | ⟨x, xs⟩
        · simp
        · have hne : (x :: xs : List EffectEntry) ≠ [] := by simp
          obtain ⟨y, hy⟩ := Option.isSome_iff_exists.mp (List.getLast?_isSome.mpr hne)
          rw [List.getLast?_cons_cons, hy]
          simp
      · rw [effectLoop, if_neg he, ih, List.filter_cons]
        simp [he]

/-- Helper: in every outcome branch the first request issued is the single
catalog GET with timeout 10. -/
theorem runRequests_head (s : PokeWizard) (cat : CatalogOutcome) (w : String → HttpOutcome) :
    (runRequests s cat w).head? = some ⟨catalogUrl s, 10⟩ := by
  cases cat with
  | transportError c => rfl
  | response st data =>
      by_cases h4 : st = 404
      · simp [runRequests, action_search_api, h4]
      · by_cases h2 : st = 200
        · simp [runRequests, action_search_api, h4, h2]
        · simp [runRequests, action_search_api, h4, h2]

/-- Claim C1 counterexample: after a prior successful creature lookup, a new
lookup that fails with NotFound (HTTP 404) leaves found = true and every
text/numeric result field still populated on the displayed record — the
prior result state is NOT invalidated before the network call. -/
theorem C1_stale_fields_survive_counterexample :
    (runSelf sPika (CatalogOutcome.response 404 p0) wQuiet).found = true ∧
    (runSelf sPika (CatalogOutcome.response 404 p0) wQuiet).result_name = some "Pikachu" ∧
    (runSelf sPika (CatalogOutcome.response 404 p0) wQuiet).result_id = 25 ∧
    (runSelf sPika (CatalogOutcome.response 404 p0) wQuiet).poke_types = some "Electric" := by
  decide

/-- Claim C1 (amended): on a lookup the action invalidates ONLY the two image
fields of the triggering record before the network call; when the catalog
call fails (NotFound, UpstreamError or NetworkError) a UserError is raised
and the record keeps found and every common, creature-specific and
item-specific field from before the trigger — only the images are cleared.
The full clearing of text fields happens only in the fresh record created on
success. -/
theorem C1_amended_only_images_cleared (s : PokeWizard) (cat : CatalogOutcome)
    (w : String → HttpOutcome) (hfail : catalogFailedB cat = true) :
    runSelf s cat w = { s with sprite_front := none, sprite_back := none } ∧
      ∃ m, runResult s cat w = Except.error (PyExc.userError m) := by
  refine ⟨selfAfter_frame s cat w, ?_⟩
  cases cat with
  | transportError c => exact ⟨"Error de red al conectar con PokeAPI: " ++ c, rfl⟩
  | response st data =>
      simp only [catalogFailedB] at hfail
      have h200 : st ≠ 200 := by simpa using hfail
      by_cases h4 : st = 404
      · refine ⟨"No se encontró nada con el nombre \x27" ++ pyLower (pyStrip s.search_name) ++
          "\x27 en la categoría " ++ pyCapitalize (searchTypeValue s.search_type) ++ ".", ?_⟩
        simp [runResult, action_search_api, h4]
      · refine ⟨"Hubo un error de conexión con la PokeAPI.", ?_⟩
        simp [runResult, action_search_api, h4, h200]

/-- Witness for C1 (amended), at a prior successful record and an upstream
HTTP 500 failure. -/
theorem C1_amended_only_images_cleared_witness :
    runSelf sPika (CatalogOutcome.response 500 p0) wQuiet =
      { sPika with sprite_front := none, sprite_back := none } ∧
      ∃ m, runResult sPika (CatalogOutcome.response 500 p0) wQuiet =
        Except.error (PyExc.userError m) :=
  C1_amended_only_images_cleared sPika (CatalogOutcome.response 500 p0) wQuiet (by decide)

/-- Claim C2 counterexample: the wizard record carries no cacheEpoch counter.
A lookup attempt (N = 1, failing with NotFound, from a record whose images
are already clear) returns the triggering record COMPLETELY unchanged, so no
field of the record increases by 1 per attempt as the claim requires. -/
theorem C2_no_epoch_counterexample :
    runSelf sPika (CatalogOutcome.response 404 p0) wQuiet = sPika := by
  decide

/-- Claim C2 (amended): the record has no cacheEpoch field at all; for every
sequence of lookup attempts (each succeeding or failing) every non-image
field of the triggering record is unchanged after the sequence — a
successful attempt writes its results into a brand-new record and a failed
one only clears the images — so no per-attempt epoch counter exists on the
record. -/
theorem C2_amended_no_epoch_field (s : PokeWizard)
    (attempts : List (CatalogOutcome × (String → HttpOutcome))) :
    nonSpriteFields (runAttempts s attempts) = nonSpriteFields s := by
  induction attempts generalizing s with
  | nil => rfl
  | cons a rest ih =>
      rw [runAttempts, ih, selfAfter_frame]
      rfl

/-- Claim C3 counterexample: with a whitespace-only query the action still
issues the catalog network call (with an empty lookup key) and does change
the record state (it clears the previously set front image). -/
theorem C3_empty_query_calls_counterexample :
    runRequests sBlank (CatalogOutcome.transportError "refused") wQuiet =
      [⟨"https://pokeapi.co/api/v2/pokemon/", 10⟩] ∧
    runSelf sBlank (CatalogOutcome.transportError "refused") wQuiet ≠ sBlank := by
  decide

/-- Claim C3 (amended): the action has no EmptyQuery guard — for every record
whose whitespace-trimmed query is empty it still issues the catalog GET
(first request, timeout 10) with an EMPTY lookup key, after clearing the two
image fields of the triggering record. -/
theorem C3_amended_no_empty_guard (s : PokeWizard) (cat : CatalogOutcome)
    (w : String → HttpOutcome) (hempty : pyStrip s.search_name = "") :
    (runRequests s cat w).head? = some ⟨catalogUrl s, 10⟩ ∧
      pyLower (pyStrip s.search_name) = "" ∧
      runSelf s cat w = { s with sprite_front := none, sprite_back := none } := by
  refine ⟨runRequests_head s cat w, ?_, selfAfter_frame s cat w⟩
  rw [hempty]
  rfl

/-- Witness for C3 (amended), at a record whose query is three spaces. -/
theorem C3_amended_no_empty_guard_witness :
    (runRequests sBlank (CatalogOutcome.transportError "refused") wQuiet).head? =
      some ⟨catalogUrl sBlank, 10⟩ ∧
      pyLower (pyStrip sBlank.search_name) = "" ∧
      runSelf sBlank (CatalogOutcome.transportError "refused") wQuiet =
        { sBlank with sprite_front := none, sprite_back := none } :=
  C3_amended_no_empty_guard sBlank (CatalogOutcome.transportError "refused") wQuiet (by decide)

/-- Claim C4 counterexample: on an item payload with two effect entries in
the target language ("es" with short effects "A" then "B"), the committed
record's effect text is "B" — the code keeps the LAST matching entry, while
the claim requires the FIRST matching entry, which is "A". -/
theorem C4_first_vs_last_counterexample :
    (runCommitted sPotion (CatalogOutcome.response 200 pItem2) wQuiet).map
        PokeWizard.item_effect = some (some "B") ∧
    specFirstEffect "es" [⟨"es", "A"⟩, ⟨"es", "B"⟩] "Sin descripción" = "A" ∧
    ("B" : String) ≠ "A" := by
  decide

/-- Claim C4 (amended): for every successful Item-kind lookup, cost equals
the payload cost defaulting to 0 when absent, and effectText equals the
short effect of the LAST entry whose language tag is "es" — the last element
of the matching sublist — or the sentinel "Sin descripción" when no entry
matches or the list is empty/absent. -/
theorem C4_amended_last_match_effect (s : PokeWizard) (w : String → HttpOutcome)
    (data : Payload) (nm : String) (rid : Int) (spr : Sprites)
    (hs : s.search_type = SearchType.item)
    (h1 : data.name = some nm) (h2 : data.id = some rid) (h6 : data.sprites = some spr) :
    ∃ rec, runResult s (CatalogOutcome.response 200 data) w = Except.ok rec ∧
      rec.item_cost = data.cost.getD 0 ∧
      rec.item_effect = some
        (((((data.effect_entries.getD []).filter
            (fun e => e.languageName == "es")).getLast?).map
          EffectEntry.shortEffect).getD "Sin descripción") := by
  have hk : ¬ s.search_type = SearchType.pokemon := by
    rw [hs]
    decide
  refine ⟨{ search_type := s.search_type, search_name := s.search_name, found := true,
            result_name := some (pyTitle (pyReplaceDash nm)), result_id := rid,
            height_cm := 0, weight_kg := 0, poke_types := none,
            item_cost := data.cost.getD 0,
            item_effect := some (effectTextOf data.effect_entries),
            sprite_front := (fetch_image w spr.itemDefault).2, sprite_back := none },
          ?_, rfl, ?_⟩
  · simp only [runResult, action_search_api]
    norm_num
    unfold searchVals
    simp only [h1, h2, if_neg hk, h6]
  · cases hee : data.effect_entries with
    | none => simp [effectTextOf]
    | some l => simp [effectTextOf, effectLoop_getLast]

/-- Witness for C4 (amended), at the two-entry item payload. -/
theorem C4_amended_last_match_effect_witness :
    ∃ rec, runResult sPotion (CatalogOutcome.response 200 pItem2) wQuiet = Except.ok rec ∧
      rec.item_cost = pItem2.cost.getD 0 ∧
      rec.item_effect = some
        (((((pItem2.effect_entries.getD []).filter
            (fun e => e.languageName == "es")).getLast?).map
          EffectEntry.shortEffect).getD "Sin descripción") :=
  C4_amended_last_match_effect sPotion wQuiet pItem2 "potion" 17 sprNone rfl rfl rfl rfl

/-- Claim C5 counterexample: a creature payload that omits the height key
makes the action raise a KeyError instead of defaulting the absent numeric
field to 0 — the transform DOES fail on a partial payload. -/
theorem C5_missing_height_raises_counterexample :
    runError sPika (CatalogOutcome.response 200 pNoHeight) wQuiet =
      some (PyExc.keyError "height") := by
  decide

/-- Claim C5 (amended): only the item-specific optional fields default — an
item payload without cost and without effect_entries still succeeds with
cost 0 and the sentinel effect text, but an absent creature numeric field
(height, weight) or text list (types) raises a KeyError instead of
defaulting, as the counterexample shows. -/
theorem C5_amended_item_defaults_only (s : PokeWizard) (w : String → HttpOutcome)
    (data : Payload) (nm : String) (rid : Int) (spr : Sprites)
    (hs : s.search_type = SearchType.item)
    (h1 : data.name = some nm) (h2 : data.id = some rid) (h6 : data.sprites = some spr)
    (hc : data.cost = none) (he : data.effect_entries = none) :
    ∃ rec, runResult s (CatalogOutcome.response 200 data) w = Except.ok rec ∧
      rec.item_cost = 0 ∧ rec.item_effect = some "Sin descripción" := by
  have hk : ¬ s.search_type = SearchType.pokemon := by
    rw [hs]
    decide
  refine ⟨{ search_type := s.search_type, search_name := s.search_name, found := true,
            result_name := some (pyTitle (pyReplaceDash nm)), result_id := rid,
            height_cm := 0, weight_kg := 0, poke_types := none,
            item_cost := data.cost.getD 0,
            item_effect := some (effectTextOf data.effect_entries),
            sprite_front := (fetch_image w spr.itemDefault).2, sprite_back := none },
          ?_, ?_, ?_⟩
  · simp only [runResult, action_search_api]
    norm_num
    unfold searchVals
    simp only [h1, h2, if_neg hk, h6]
  · rw [hc]
    rfl
  · rw [he]
    rfl

/-- Witness for C5 (amended), at the bare item payload. -/
theorem C5_amended_item_defaults_only_witness :
    ∃ rec, runResult sPotion (CatalogOutcome.response 200 pBare) wQuiet = Except.ok rec ∧
      rec.item_cost = 0 ∧ rec.item_effect = some "Sin descripción" :=
  C5_amended_item_defaults_only sPotion wQuiet pBare "oran-berry" 99 sprNone rfl rfl rfl rfl
    rfl rfl

/-- Claim C6 counterexample: on a creature payload whose single type name is
"x-y", the committed type summary is "X-y" (Python capitalize: first letter
upper, rest lower), while the claim's title-casing of each type name gives
"X-Y" — the code does not title-case type names. -/
theorem C6_capitalize_vs_title_counterexample :
    (runCommitted sPika (CatalogOutcome.response 200 pXY) wQuiet).map
        PokeWizard.poke_types = some (some "X-y") ∧
    specTitleTypeSummary [⟨"x-y"⟩] = "X-Y" ∧
    ("X-y" : String) ≠ "X-Y" := by
  decide

/-- Claim C6 (amended): for every successful Creature-kind lookup, heightCm
equals the payload height times 10 and weightKg the payload weight divided
by 10, exactly; the type summary is the ", "-joined list of each type name
CAPITALIZED (first letter upper-cased, remainder lower-cased — not
title-cased) in catalog order; resultName is the payload name with hyphens
replaced by spaces then title-cased; and resultId is the payload id. -/
theorem C6_amended_creature_transform (s : PokeWizard) (w : String → HttpOutcome)
    (data : Payload) (nm : String) (rid hgt wt : Int) (tys : List TypeEntry) (spr : Sprites)
    (hs : s.search_type = SearchType.pokemon)
    (h1 : data.name = some nm) (h2 : data.id = some rid)
    (h3 : data.height = some hgt) (h4 : data.weight = some wt)
    (h5 : data.types = some tys) (h6 : data.sprites = some spr) :
    ∃ rec, runResult s (CatalogOutcome.response 200 data) w = Except.ok rec ∧
      rec.height_cm = (hgt : Rat) * 10 ∧
      rec.weight_kg = (wt : Rat) / 10 ∧
      rec.poke_types = some (String.intercalate ", "
        (tys.map (fun t => pyCapitalize t.typeName))) ∧
      rec.result_name = some (pyTitle (pyReplaceDash nm)) ∧
      rec.result_id = rid := by
  refine ⟨{ search_type := s.search_type, search_name := s.search_name, found := true,
            result_name := some (pyTitle (pyReplaceDash nm)), result_id := rid,
            height_cm := (hgt : Rat) * 10, weight_kg := (wt : Rat) / 10,
            poke_types := some (String.intercalate ", "
              (tys.map (fun t => pyCapitalize t.typeName))),
            item_cost := 0, item_effect := none,
            sprite_front := (fetch_image w spr.front_default).2,
            sprite_back := (fetch_image w spr.back_default).2 },
          ?_, rfl, rfl, rfl, rfl, rfl⟩
  simp only [runResult, action_search_api]
  norm_num
  unfold searchVals
  simp only [h1, h2, if_pos hs, h3, h4, h5, h6]

/-- Witness for C6 (amended), at the hyphenated-name creature payload. -/
theorem C6_amended_creature_transform_witness :
    ∃ rec, runResult sPika (CatalogOutcome.response 200 pXY) wQuiet = Except.ok rec ∧
      rec.height_cm = ((13 : Int) : Rat) * 10 ∧
      rec.weight_kg = ((545 : Int) : Rat) / 10 ∧
      rec.poke_types = some (String.intercalate ", "
        (([⟨"x-y"⟩] : List TypeEntry).map (fun t => pyCapitalize t.typeName))) ∧
      rec.result_name = some (pyTitle (pyReplaceDash "mr-mime")) ∧
      rec.result_id = 122 :=
  C6_amended_creature_transform sPika wQuiet pXY "mr-mime" 122 13 545 [⟨"x-y"⟩] sprNone
    rfl rfl rfl rfl rfl rfl rfl

/-- Claim C7: for every lookup in Item mode the back sprite is never set —
the triggering record's sprite_back is cleared, and every record an item
lookup commits has sprite_back empty. -/
theorem C7_item_sprite_back_none (s : PokeWizard) (cat : CatalogOutcome)
    (w : String → HttpOutcome) (hs : s.search_type = SearchType.item) :
    (runSelf s cat w).sprite_back = none ∧
      ∀ rec, runCommitted s cat w = some rec → rec.sprite_back = none := by
  constructor
  · rw [runSelf, selfAfter_frame]
  · intro rec hrec
    cases cat with
    | transportError c => simp [runCommitted, action_search_api] at hrec
    | response st data =>
        by_cases h4 : st = 404
        · simp [runCommitted, action_search_api, h4] at hrec
        · by_cases h2 : st = 200
          · simp [runCommitted, action_search_api, h4, h2] at hrec
            rcases hsv : (searchVals s data w).2 with e | r
            · rw [hsv] at hrec
              simp at hrec
            · rw [hsv] at hrec
              simp only [Option.some.injEq] at hrec
              subst hrec
              exact (searchVals_ok s data w r hsv).2.2.2 hs
          · simp [runCommitted, action_search_api, h4, h2] at hrec

/-- Witness for C7, at a successful item lookup. -/
theorem C7_item_sprite_back_none_witness :
    (runSelf sPotion (CatalogOutcome.response 200 pItem2) wQuiet).sprite_back = none ∧
      recPotion.sprite_back = none :=
  ⟨(C7_item_sprite_back_none sPotion (CatalogOutcome.response 200 pItem2) wQuiet rfl).1,
   (C7_item_sprite_back_none sPotion (CatalogOutcome.response 200 pItem2) wQuiet rfl).2
     recPotion (by decide)⟩

/-- Claim C8: the image fetch is total and silent — an empty or absent URL
returns no image without issuing a request; a 200 response returns the body
base64-encoded over one request with timeout 5; any other status or any
transport exception returns no image over that same single request, never an
error. -/
theorem C8_fetch_image_total (w : String → HttpOutcome) (url : Option String) :
    (url = none → fetch_image w url = ([], none)) ∧
    (url = some "" → fetch_image w url = ([], none)) ∧
    ∀ u, url = some u → u ≠ "" →
      (∀ body, w u = HttpOutcome.response 200 body →
          fetch_image w url = ([⟨u, 5⟩], some (b64encode body))) ∧
      (∀ st body, w u = HttpOutcome.response st body → st ≠ 200 →
          fetch_image w url = ([⟨u, 5⟩], none)) ∧
      (∀ c, w u = HttpOutcome.transportError c →
          fetch_image w url = ([⟨u, 5⟩], none)) := by
  refine ⟨fun h => by rw [h]; rfl, fun h => by rw [h]; simp [fetch_image], fun u hu hne => ?_⟩
  subst hu
  refine ⟨fun body hb => ?_, fun st body hb hst => ?_, fun c hc => ?_⟩
  · simp [fetch_image, hne, hb]
  · simp [fetch_image, hne, hb, hst]
  · simp [fetch_image, hne, hc]

/-- Witness for C8, at a URL answered 200 with body bytes 77, 97, 110. -/
theorem C8_fetch_image_total_witness :
    fetch_image wOk (some "http://img") = ([⟨"http://img", 5⟩], some (b64encode [77, 97, 110])) :=
  ((C8_fetch_image_total wOk (some "http://img")).2.2 "http://img" rfl (by decide)).1
    [77, 97, 110] rfl

/-- Claim C9: the catalog lookup issues exactly one GET, first, with timeout
10, every further request being an image fetch with timeout 5; a transport
failure raises the network UserError carrying the cause, a 404 raises the
NotFound UserError naming the normalized key and the capitalized kind, any
other non-200 status raises the generic connectivity UserError, and a 200
hands the decoded payload to the vals builder. -/
theorem C9_catalog_client_classification (s : PokeWizard) (cat : CatalogOutcome)
    (w : String → HttpOutcome) :
    (runRequests s cat w).head? = some ⟨catalogUrl s, 10⟩ ∧
    (∀ r ∈ (runRequests s cat w).tail, r.timeout = 5) ∧
    (∀ c, cat = CatalogOutcome.transportError c →
        runResult s cat w = Except.error (PyExc.userError
          ("Error de red al conectar con PokeAPI: " ++ c))) ∧
    (∀ data, cat = CatalogOutcome.response 404 data →
        runResult s cat w = Except.error (PyExc.userError
          ("No se encontró nada con el nombre \x27" ++ pyLower (pyStrip s.search_name) ++
            "\x27 en la categoría " ++ pyCapitalize (searchTypeValue s.search_type) ++ "."))) ∧
    (∀ st data, cat = CatalogOutcome.response st data → st ≠ 404 → st ≠ 200 →
        runResult s cat w = Except.error (PyExc.userError
          "Hubo un error de conexión con la PokeAPI.")) ∧
    (∀ data, cat = CatalogOutcome.response 200 data →
        runResult s cat w = (searchVals s data w).2) := by
  refine ⟨runRequests_head s cat w, ?_, ?_, ?_, ?_, ?_⟩
  · intro r hr
    cases cat with
    | transportError c => simp [runRequests, action_search_api] at hr
    | response st data =>
        by_cases h4 : st = 404
        · simp [runRequests, action_search_api, h4] at hr
        · by_cases h2 : st = 200
          · simp only [runRequests, action_search_api, h4, h2, if_false, if_true,
              List.tail_cons] at hr
            exact searchVals_timeout s data w r hr
          · simp [runRequests, action_search_api, h4, h2] at hr
  · intro c hc
    subst hc
    rfl
  · intro data hc
    subst hc
    simp [runResult, action_search_api]
  · intro st data hc h4 h2
    subst hc
    simp [runResult, action_search_api, h4, h2]
  · intro data hc
    subst hc
    simp [runResult, action_search_api]

/-- Witness for C9, at a transport failure with cause "refused". -/
theorem C9_catalog_client_classification_witness :
    (runRequests sPika (CatalogOutcome.transportError "refused") wQuiet).head? =
      some ⟨catalogUrl sPika, 10⟩ ∧
    runResult sPika (CatalogOutcome.transportError "refused") wQuiet =
      Except.error (PyExc.userError ("Error de red al conectar con PokeAPI: " ++ "refused")) :=
  ⟨(C9_catalog_client_classification sPika (CatalogOutcome.transportError "refused") wQuiet).1,
   (C9_catalog_client_classification sPika
      (CatalogOutcome.transportError "refused") wQuiet).2.2.1 "refused" rfl⟩

/-- Claim C10: a successful lookup commits its populated result in a
brand-new record (found = true, carrying the trigger's search fields) while
the triggering record itself keeps every field except the two sprite fields,
which are cleared to absent at the start of the action. -/
theorem C10_commit_fresh_record_frame (s : PokeWizard) (cat : CatalogOutcome)
    (w : String → HttpOutcome) :
    runSelf s cat w = { s with sprite_front := none, sprite_back := none } ∧
      ∀ rec, runCommitted s cat w = some rec →
        rec.found = true ∧ rec.search_type = s.search_type ∧
          rec.search_name = s.search_name := by
  refine ⟨selfAfter_frame s cat w, ?_⟩
  intro rec hrec
  cases cat with
  | transportError c => simp [runCommitted, action_search_api] at hrec
  | response st data =>
      by_cases h4 : st = 404
      · simp [runCommitted, action_search_api, h4] at hrec
      · by_cases h2 : st = 200
        · simp [runCommitted, action_search_api, h4, h2] at hrec
          rcases hsv : (searchVals s data w).2 with e | r
          · rw [hsv] at hrec
            simp at hrec
          · rw [hsv] at hrec
            simp only [Option.some.injEq] at hrec
            subst hrec
            have hok := searchVals_ok s data w r hsv
            exact ⟨hok.1, hok.2.1, hok.2.2.1⟩
        · simp [runCommitted, action_search_api, h4, h2] at hrec

/-- Witness for C10, at a successful item lookup committing recPotion. -/
theorem C10_commit_fresh_record_frame_witness :
    runSelf sPotion (CatalogOutcome.response 200 pItem2) wQuiet =
      { sPotion with sprite_front := none, sprite_back := none } ∧
      recPotion.found = true ∧ recPotion.search_type = sPotion.search_type ∧
        recPotion.search_name = sPotion.search_name :=
  ⟨(C10_commit_fresh_record_frame sPotion (CatalogOutcome.response 200 pItem2) wQuiet).1,
   (C10_commit_fresh_record_frame sPotion (CatalogOutcome.response 200 pItem2) wQuiet).2
     recPotion (by decide)⟩
